import Mathlib

/-!
Shallow embedding of the zCore memory subsystem (zCore/src/memory.rs) and the
zircon object syscall layer (zircon-syscall/src/object.rs), with theorems
checking the natural-language specification against the code.

Conventions of the embedding:
* machine integers (usize, u32, u64) are modelled as `Nat`; the code never
  relies on wrap-around in the fragments embedded here (all subtractions are
  guarded by the surrounding logic, noted at each site);
* Rust panics (`unwrap` on `None`, failed `assert!`, `unimplemented!`, an
  out-of-bounds array index) are modelled as an explicit `SysOutcome.panic`
  outcome, distinct from typed `ZxError` failures;
* code external to the two source files (the bitmap frame allocator, user
  pointer marshalling, `Signal::from_bits`) is modelled as an explicit
  parameter or state field, so theorems quantify over its behaviour.
-/

/-- Typed error codes of the zircon syscall layer (`ZxError` in the source). -/
inductive ZxError where
  | BAD_HANDLE
  | WRONG_TYPE
  | ACCESS_DENIED
  | BUFFER_TOO_SMALL
  | INVALID_ARGS
  | NOT_SUPPORTED
deriving DecidableEq, Repr

/-- Reasons for a Rust panic in the embedded code. -/
inductive KPanic where
  /-- `Option::unwrap` called on `None`. -/
  | unwrapNone
  /-- array index out of bounds (Rust bounds check). -/
  | indexOutOfBounds
  /-- a failed `assert!`. -/
  | assertionFailed
  /-- the `unimplemented!` macro. -/
  | unimplemented
deriving DecidableEq, Repr

/-- Outcome of an embedded operation: a value, a typed `ZxError` failure, or a
Rust panic. -/
inductive SysOutcome (α : Type) where
  | ok : α → SysOutcome α
  | fail : ZxError → SysOutcome α
  | panic : KPanic → SysOutcome α
deriving DecidableEq, Repr

/-- Monadic sequencing mirroring Rust's `?` operator: failures and panics
propagate. -/
def SysOutcome.bind {α β : Type} : SysOutcome α → (α → SysOutcome β) → SysOutcome β
  | .ok a, f => f a
  | .fail e, _ => .fail e
  | .panic p, _ => .panic p

/-- Whether an outcome is a success. -/
def SysOutcome.isOk {α : Type} : SysOutcome α → Bool
  | .ok _ => true
  | _ => false

/-- Whether an outcome is the given typed failure. -/
def SysOutcome.failsWith {α : Type} : SysOutcome α → ZxError → Bool
  | .fail e, e' => e = e'
  | _, _ => false

/-- Whether an outcome is a panic. -/
def SysOutcome.isPanic {α : Type} : SysOutcome α → Bool
  | .panic _ => true
  | _ => false

/-! ### Constants of zCore/src/memory.rs -/

/-- `MEMORY_OFFSET` in memory.rs. -/
def MEMORY_OFFSET : Nat := 0

/-- `KERNEL_OFFSET` in memory.rs. -/
def KERNEL_OFFSET : Nat := 0xffffff0000000000

/-- `PHYSICAL_MEMORY_OFFSET` in memory.rs. -/
def PHYSICAL_MEMORY_OFFSET : Nat := 0xffff800000000000

/-- `PAGE_SIZE` in memory.rs: `1 << 12`. -/
def PAGE_SIZE : Nat := 1 <<< 12

/-- `KERNEL_PM4` in memory.rs: top-level page table index of the kernel image. -/
def KERNEL_PM4 : Nat := (KERNEL_OFFSET >>> 39) &&& 0o777

/-- `PHYSICAL_MEMORY_PM4` in memory.rs: top-level index of the direct physical
memory window. -/
def PHYSICAL_MEMORY_PM4 : Nat := (PHYSICAL_MEMORY_OFFSET >>> 39) &&& 0o777

/-- `PMEM_BASE` in memory.rs (`hal_pmem_base`). -/
def PMEM_BASE : Nat := PHYSICAL_MEMORY_OFFSET

/-! ### Kernel address-space stitching (`hal_pt_map_kernel`) -/

/-- A top-level page table entry, at the abstraction level used by
`hal_pt_map_kernel`: a physical address plus a flag bitmask.
`GLOBAL` is bit 8 of the x86_64 flag set. -/
structure PTEntry where
  addr : Nat
  flags : Nat
deriving DecidableEq, Repr

/-- The x86_64 `GLOBAL` page table flag (bit 8). -/
def EF_GLOBAL : Nat := 1 <<< 8

/-- A top-level page table: 512 entries, modelled as a total function on
indices (the source only ever reads and writes indices below 512). -/
def PageTable : Type := Nat → PTEntry

/-- `hal_pt_map_kernel` from memory.rs: copy the top-level entries at
`KERNEL_PM4` and `PHYSICAL_MEMORY_PM4` from `current` into `pt`, OR-ing the
`GLOBAL` flag into each, leaving every other slot of `pt` unchanged. -/
def hal_pt_map_kernel (pt current : PageTable) : PageTable :=
  let ekernel := current KERNEL_PM4
  let ephysical := current PHYSICAL_MEMORY_PM4
  fun i =>
    if i = KERNEL_PM4 then
      { addr := ekernel.addr, flags := ekernel.flags ||| EF_GLOBAL }
    else if i = PHYSICAL_MEMORY_PM4 then
      { addr := ephysical.addr, flags := ephysical.flags ||| EF_GLOBAL }
    else pt i

/-! ### Heap rescue (`enlarge_heap`)

The frame allocator is the external `bitmap_allocator` crate; the rescue is
parametric in the sequence of frame ids it returns (`frames i` is the result
of the `i`-th `FRAME_ALLOCATOR.lock().alloc()` call, `none` when no frame is
free). -/

/-- `hal_frame_alloc` from memory.rs: map the allocator's frame id to a
physical address (`id * PAGE_SIZE + MEMORY_OFFSET`). -/
def hal_frame_alloc (frames : Nat → Option Nat) (i : Nat) : Option Nat :=
  (frames i).map (fun id => id * PAGE_SIZE + MEMORY_OFFSET)

/-- One attempt to append a new run `(va, PAGE_SIZE)` to the run list.
The Rust array write `addrs[addr_len] = (va, PAGE_SIZE)` is bounds-checked:
with `addr_len` already at 32 it panics instead of writing out of bounds.
The run list is kept most-recent-first (the Rust code appends at the end of
an array; the head of this list is `addrs[addr_len - 1]`). -/
def pushRun (runs : List (Nat × Nat)) (va : Nat) : SysOutcome (List (Nat × Nat)) :=
  if runs.length < 32 then .ok ((va, PAGE_SIZE) :: runs)
  else .panic .indexOutOfBounds

/-- One iteration of the coalescing loop body of `enlarge_heap`, given the
virtual address `va` of the newly allocated frame: merge into the most recent
run when `addr - PAGE_SIZE == va` (the subtraction cannot underflow since
every tracked `addr` is at least `PMEM_BASE`), otherwise start a new run. -/
def enlargeStep (runs : List (Nat × Nat)) (va : Nat) : SysOutcome (List (Nat × Nat)) :=
  match runs with
  | (addr, len) :: rest =>
    if addr - PAGE_SIZE = va then .ok ((addr - PAGE_SIZE, len + PAGE_SIZE) :: rest)
    else pushRun ((addr, len) :: rest) va
  | [] => pushRun [] va

/-- The `for _ in 0..16384` loop of `enlarge_heap`: `i` is the iteration
index, `fuel` the number of iterations remaining. `hal_frame_alloc(...).unwrap()`
panics when the allocator returns `None`. -/
def enlargeLoop (frames : Nat → Option Nat) : Nat → Nat → List (Nat × Nat) →
    SysOutcome (List (Nat × Nat))
  | _, 0, runs => .ok runs
  | i, fuel + 1, runs =>
    match hal_frame_alloc frames i with
    | none => .panic .unwrapNone
    | some page =>
      match enlargeStep runs (PMEM_BASE + page) with
      | .ok runs' => enlargeLoop frames (i + 1) (fuel) runs'
      | .fail e => .fail e
      | .panic p => .panic p

/-- `enlarge_heap` from memory.rs: allocate 16384 frames one at a time,
coalescing physically adjacent consecutive allocations into runs; on success
the resulting runs (most recent first) are the arenas registered with the
buddy allocator via `heap.init`. -/
def enlarge_heap (frames : Nat → Option Nat) : SysOutcome (List (Nat × Nat)) :=
  enlargeLoop frames 0 16384 []

/-- Predicate on a rescue outcome: when the rescue completes, it tracks at
most 32 runs. -/
def runsWithinBound : SysOutcome (List (Nat × Nat)) → Prop
  | .ok runs => runs.length ≤ 32
  | _ => True

/-! ### Constants of zircon-syscall/src/object.rs -/

/-- `ZX_PROP_NAME`. -/
def ZX_PROP_NAME : Nat := 3

/-- `ZX_PROP_REGISTER_FS`. -/
def ZX_PROP_REGISTER_FS : Nat := 4

/-- `ZX_PROP_PROCESS_DEBUG_ADDR`. -/
def ZX_PROP_PROCESS_DEBUG_ADDR : Nat := 5

/-- `ZX_PROCESS_VDSO_BASE_ADDRESS`. -/
def ZX_PROCESS_VDSO_BASE_ADDRESS : Nat := 6

/-- `ZX_PROP_PROCESS_BREAK_ON_LOAD`. -/
def ZX_PROP_PROCESS_BREAK_ON_LOAD : Nat := 7

/-- `ZX_MAX_NAME_LEN`. -/
def ZX_MAX_NAME_LEN : Nat := 32

/-- Modelled from the spec: handle rights are a bitmask (the `Rights`
bitflags of the external zircon-object crate); bit positions follow the
Zircon ABI. Only the bits used by the embedded syscalls are named. -/
def RIGHT_WRITE : Nat := 1 <<< 3

/-- The `GET_PROPERTY` right (bit 6). -/
def RIGHT_GET_PROPERTY : Nat := 1 <<< 6

/-- The `SET_PROPERTY` right (bit 7). -/
def RIGHT_SET_PROPERTY : Nat := 1 <<< 7

/-- The `WAIT` right (bit 14). -/
def RIGHT_WAIT : Nat := 1 <<< 14

/-- The `INSPECT` right (bit 15). -/
def RIGHT_INSPECT : Nat := 1 <<< 15

/-- `rights.contains(required)` on bitmasks. -/
def rightsContain (rights required : Nat) : Bool :=
  required &&& rights == required

/-- The dynamic kind of a kernel object, as far as the embedded downcasts
need to distinguish it. -/
inductive ObjKind where
  | thread
  | process
  | vmar
  | port
  | other
deriving DecidableEq, Repr

/-- A kernel object: its downcast kind plus the mutable state the embedded
syscalls touch. The name is a byte string (`List Char`); the stored bytes are
exactly those `set_name` received. -/
structure KObject where
  kind : ObjKind
  name : List Char
  debugAddr : Nat
  breakOnLoad : Nat
deriving DecidableEq, Repr

/-- A handle: an object id plus a rights bitmask. -/
structure Handle where
  obj : Nat
  rights : Nat
deriving DecidableEq, Repr

/-- The state visible to one syscall invocation: the calling process's handle
table, the object store, the calling thread (`self.thread`), the caller's
trap-frame `fsbase` register (`self.regs.fsbase`), the caller's process vmar
vdso code start, and a model of `Signal::from_bits` validity (external
zircon-object crate). User pointers are modelled as always marshallable: the
byte strings and words passed to the syscalls stand for the user memory at
the given pointers. -/
structure SysState where
  handles : Nat → Option Handle
  objects : Nat → KObject
  callerThread : Nat
  fsbase : Nat
  vdsoCodeStart : Option Nat
  signalBitsValid : Nat → Bool

/-- `proc().get_dyn_object_with_rights(handle_value, desired_rights)`:
resolve the handle (else `BAD_HANDLE`) and check it carries the desired
rights (else `ACCESS_DENIED`). -/
def get_dyn_object_with_rights (st : SysState) (handle_value desired : Nat) :
    SysOutcome Nat :=
  match st.handles handle_value with
  | none => .fail .BAD_HANDLE
  | some h =>
    if rightsContain h.rights desired then .ok h.obj else .fail .ACCESS_DENIED

/-- `proc().get_object_with_rights::<T>(handle_value, desired_rights)`:
as above, plus a downcast to the concrete type (else `WRONG_TYPE`). -/
def get_object_with_rights (st : SysState) (handle_value desired : Nat)
    (k : ObjKind) : SysOutcome Nat :=
  (get_dyn_object_with_rights st handle_value desired).bind fun oid =>
    if (st.objects oid).kind = k then .ok oid else .fail .WRONG_TYPE

/-- `proc().get_object::<T>(handle_value)`: resolve and downcast with no
rights requirement. -/
def get_object (st : SysState) (handle_value : Nat) (k : ObjKind) :
    SysOutcome Nat :=
  match st.handles handle_value with
  | none => .fail .BAD_HANDLE
  | some h =>
    if (st.objects h.obj).kind = k then .ok h.obj else .fail .WRONG_TYPE

/-- `proc().get_handle_info(handle)`: succeeds exactly when the handle is
live. -/
def get_handle_info (st : SysState) (handle_value : Nat) : SysOutcome Unit :=
  match st.handles handle_value with
  | none => .fail .BAD_HANDLE
  | some _ => .ok ()

/-- What a syscall wrote through its user-out pointer. `cstring s` stands for
`write_cstring`: the bytes of `s` followed by a nul terminator. The three
info markers stand for the topic's fixed-size info structure (whose content
is computed by the external zircon-object crate). -/
inductive Written where
  | cstring (s : List Char)
  | word (n : Nat)
  | processInfo
  | vmarInfo
  | handleBasicInfo
deriving DecidableEq, Repr

/-- Overwrite the name of object `oid` (`object.set_name`, which stores the
bytes it is given). -/
def setName (st : SysState) (oid : Nat) (s : List Char) : SysState :=
  { st with objects := fun o =>
      if o = oid then { st.objects o with name := s } else st.objects o }

/-- `process.set_debug_addr`. -/
def setDebugAddr (st : SysState) (oid : Nat) (v : Nat) : SysState :=
  { st with objects := fun o =>
      if o = oid then { st.objects o with debugAddr := v } else st.objects o }

/-- `process.set_dyn_break_on_load`. -/
def setBreakOnLoad (st : SysState) (oid : Nat) (v : Nat) : SysState :=
  { st with objects := fun o =>
      if o = oid then { st.objects o with breakOnLoad := v } else st.objects o }

/-- `sys_object_get_property` from object.rs. Arms appear in source order
(3, 5, 6, 7, fallback). `input` marshalling is not needed on the get path;
the returned `Written` is what goes through the user-out pointer. -/
def sys_object_get_property (st : SysState) (handle_value property buffer_size : Nat) :
    SysOutcome (Nat × Written) :=
  (get_dyn_object_with_rights st handle_value RIGHT_GET_PROPERTY).bind fun oid =>
  if property = ZX_PROP_NAME then
    if buffer_size < ZX_MAX_NAME_LEN then .fail .BUFFER_TOO_SMALL
    else .ok (0, .cstring (st.objects oid).name)
  else if property = ZX_PROP_PROCESS_DEBUG_ADDR then
    if buffer_size < 8 then .fail .BUFFER_TOO_SMALL
    else
      (get_object_with_rights st handle_value RIGHT_GET_PROPERTY .process).bind fun pid =>
        .ok (0, .word (st.objects pid).debugAddr)
  else if property = ZX_PROCESS_VDSO_BASE_ADDRESS then
    if buffer_size < 8 then .fail .BUFFER_TOO_SMALL
    else .ok (0, .word (st.vdsoCodeStart.getD 0))
  else if property = ZX_PROP_PROCESS_BREAK_ON_LOAD then
    if buffer_size < 8 then .fail .BUFFER_TOO_SMALL
    else
      (get_object_with_rights st handle_value RIGHT_GET_PROPERTY .process).bind fun pid =>
        .ok (0, .word (st.objects pid).breakOnLoad)
  else .fail .INVALID_ARGS

/-- `sys_object_set_property` from object.rs. Arms appear in source order
(3, 5, 4, 7, fallback). `input` models the user bytes at `ptr` for
`read_string` (which reads exactly `length` bytes); `inputWord` models the
word read for the scalar properties. On the `ZX_PROP_REGISTER_FS` arm the
source asserts `Arc::ptr_eq(&thread, &self.thread)` before mutating
`self.regs.fsbase`. -/
def sys_object_set_property (st : SysState) (handle_value property : Nat)
    (input : List Char) (inputWord : Nat) (buffer_size : Nat) :
    SysOutcome (Nat × SysState) :=
  (get_dyn_object_with_rights st handle_value RIGHT_SET_PROPERTY).bind fun oid =>
  if property = ZX_PROP_NAME then
    let length := if buffer_size > ZX_MAX_NAME_LEN then ZX_MAX_NAME_LEN - 1 else buffer_size
    .ok (0, setName st oid (input.take length))
  else if property = ZX_PROP_PROCESS_DEBUG_ADDR then
    if buffer_size < 8 then .fail .BUFFER_TOO_SMALL
    else
      (get_object_with_rights st handle_value RIGHT_SET_PROPERTY .process).bind fun pid =>
        .ok (0, setDebugAddr st pid inputWord)
  else if property = ZX_PROP_REGISTER_FS then
    if buffer_size < 8 then .fail .BUFFER_TOO_SMALL
    else
      (get_object st handle_value .thread).bind fun tid =>
        if tid = st.callerThread then .ok (0, { st with fsbase := inputWord })
        else .panic .assertionFailed
  else if property = ZX_PROP_PROCESS_BREAK_ON_LOAD then
    if buffer_size < 8 then .fail .BUFFER_TOO_SMALL
    else
      (get_object_with_rights st handle_value RIGHT_SET_PROPERTY .process).bind fun pid =>
        .ok (0, setBreakOnLoad st pid inputWord)
  else .fail .INVALID_ARGS

/-- The `ZxInfo` topic enumeration from object.rs. -/
inductive ZxInfo where
  | InfoNone
  | InfoHandleValid
  | InfoHandleBasic
  | InfoProcess
  | InfoProcessThreads
  | InfoVmar
  | InfoJobChildren
  | InfoJobProcess
  | InfoThread
  | InfoThreadExceptionReport
  | InfoTaskStats
  | InfoProcessMaps
  | InfoProcessVmos
  | InfoThreadStats
  | InfoCpuStats
  | InfoKmemStats
  | InfoResource
  | InfoHandleCount
  | InfoBti
  | InfoProcessHandleStats
  | InfoSocket
  | InfoVmo
  | InfoJob
  | InfoTimer
  | InfoStream
  | Unknown
deriving DecidableEq, Repr

/-- `impl From<u32> for ZxInfo` from object.rs: the closed numeric topic
enumeration, every unmatched number mapping to `Unknown`. -/
def ZxInfo.fromU32 (number : Nat) : ZxInfo :=
  if number = 0 then .InfoNone
  else if number = 1 then .InfoHandleValid
  else if number = 2 then .InfoHandleBasic
  else if number = 3 then .InfoProcess
  else if number = 4 then .InfoProcessThreads
  else if number = 7 then .InfoVmar
  else if number = 8 then .InfoJobChildren
  else if number = 9 then .InfoJobProcess
  else if number = 10 then .InfoThread
  else if number = 11 then .InfoThreadExceptionReport
  else if number = 12 then .InfoTaskStats
  else if number = 13 then .InfoProcessMaps
  else if number = 14 then .InfoProcessVmos
  else if number = 15 then .InfoThreadStats
  else if number = 16 then .InfoCpuStats
  else if number = 17 then .InfoKmemStats
  else if number = 18 then .InfoResource
  else if number = 19 then .InfoHandleCount
  else if number = 20 then .InfoBti
  else if number = 21 then .InfoProcessHandleStats
  else if number = 22 then .InfoSocket
  else if number = 23 then .InfoVmo
  else if number = 24 then .InfoJob
  else if number = 26 then .InfoTimer
  else if number = 27 then .InfoStream
  else .Unknown

/-- `sys_object_get_info` from object.rs: only the process, vmar and
handle-basic topics are implemented; every other topic (including every
recognized-but-unimplemented one) falls to the `NOT_SUPPORTED` arm. The
`buffer_size` argument is received but, as in the source (`_buffer_size`),
never consulted. -/
def sys_object_get_info (st : SysState) (handle topic _buffer_size : Nat) :
    SysOutcome (Nat × Written) :=
  match ZxInfo.fromU32 topic with
  | .InfoProcess =>
    (get_object_with_rights st handle RIGHT_INSPECT .process).bind fun _ =>
      .ok (0, .processInfo)
  | .InfoVmar =>
    (get_object_with_rights st handle RIGHT_INSPECT .vmar).bind fun _ =>
      .ok (0, .vmarInfo)
  | .InfoHandleBasic =>
    (get_handle_info st handle).bind fun _ =>
      .ok (0, .handleBasicInfo)
  | _ => .fail .NOT_SUPPORTED

/-- The registration recorded by a successful `sys_object_wait_async`
(`send_signal_to_port_async`). -/
structure WaitReg where
  object : Nat
  port : Nat
  key : Nat
  signals : Nat
deriving DecidableEq, Repr

/-- `sys_object_wait_async` from object.rs: validate the signal bits
(`Signal::from_bits`, else `INVALID_ARGS`), then hit `unimplemented!` for any
non-zero `options`, then resolve the object (WAIT right) and the port (WRITE
right, port downcast) and record the registration. -/
def sys_object_wait_async (st : SysState)
    (handle_value port_handle_value key signals options : Nat) :
    SysOutcome (Nat × WaitReg) :=
  if st.signalBitsValid signals then
    if options ≠ 0 then .panic .unimplemented
    else
      (get_dyn_object_with_rights st handle_value RIGHT_WAIT).bind fun oid =>
        (get_object_with_rights st port_handle_value RIGHT_WRITE .port).bind fun pid =>
          .ok (0, ⟨oid, pid, key, signals⟩)
  else .fail .INVALID_ARGS

/-! ### Fixtures for concrete evaluations -/

/-- An allocator that hands out five frames and is then exhausted. -/
def exhaustedAfter5 : Nat → Option Nat :=
  fun i => if i < 5 then some i else none

/-- A page table with all entries zeroed. -/
def ptZero : PageTable := fun _ => { addr := 0, flags := 0 }

/-- A page table whose entry at index `i` has address `i * 8` and flag
bits `2`. -/
def ptRamp : PageTable := fun i => { addr := i * 8, flags := 2 }

/-! ### Helper lemmas about the rescue loop -/

/-- The rescue's step never produces a typed failure: it either extends the
runs or panics on the bounds check. -/
theorem enlargeStep_not_fail (runs : List (Nat × Nat)) (va : Nat) (e : ZxError) :
    enlargeStep runs va ≠ .fail e := by
  cases runs with
  | nil => simp [enlargeStep, pushRun]
  | cons hd tl =>
    obtain ⟨addr, len⟩ := hd
    simp only [enlargeStep, pushRun]
    split_ifs <;> simp

/-- The rescue's step preserves the 32-run bound: a successful step starting
from at most 32 runs leaves at most 32 runs. -/
theorem enlargeStep_length_le (runs : List (Nat × Nat)) (va : Nat)
    (h : runs.length ≤ 32) (runs' : List (Nat × Nat))
    (hstep : enlargeStep runs va = .ok runs') : runs'.length ≤ 32 := by
  cases runs with
  | nil =>
    simp only [enlargeStep, pushRun, List.length_nil] at hstep
    rw [if_pos (by omega)] at hstep
    cases hstep
    simp
  | cons hd tl =>
    obtain ⟨addr, len⟩ := hd
    simp only [enlargeStep, pushRun] at hstep
    split_ifs at hstep with hmerge hlen
    · cases hstep
      simpa using h
    · cases hstep
      simp only [List.length_cons] at hlen ⊢
      omega

/-- If the frame allocator is exhausted at any index the loop will reach,
the loop ends in a panic (either the failed unwrap, or the bounds check on
an earlier iteration). -/
theorem enlargeLoop_panics_of_none (frames : Nat → Option Nat) :
    ∀ fuel start runs j, start ≤ j → j < start + fuel → frames j = none →
      (enlargeLoop frames start fuel runs).isPanic = true := by
  intro fuel
  induction fuel with
  | zero =>
    intro start runs j h1 h2 _
    omega
  | succ n ih =>
    intro start runs j h1 h2 h3
    rw [enlargeLoop]
    cases halloc : hal_frame_alloc frames start with
    | none => simp [SysOutcome.isPanic]
    | some page =>
      have hne : start ≠ j := by
        intro he
        rw [he, hal_frame_alloc, h3] at halloc
        simp at halloc
      simp only []
      cases hstep : enlargeStep runs (PMEM_BASE + page) with
      | ok runs' => exact ih (start + 1) runs' j (by omega) (by omega) h3
      | fail e => exact absurd hstep (enlargeStep_not_fail runs _ e)
      | panic p => simp [SysOutcome.isPanic]

/-- The loop invariant: starting from at most 32 runs, a completing loop
ends with at most 32 runs. -/
theorem enlargeLoop_runs_le (frames : Nat → Option Nat) :
    ∀ fuel start runs, runs.length ≤ 32 →
      runsWithinBound (enlargeLoop frames start fuel runs) := by
  intro fuel
  induction fuel with
  | zero =>
    intro start runs h
    simpa [enlargeLoop, runsWithinBound] using h
  | succ n ih =>
    intro start runs h
    rw [enlargeLoop]
    cases halloc : hal_frame_alloc frames start with
    | none => simp [runsWithinBound]
    | some page =>
      simp only []
      cases hstep : enlargeStep runs (PMEM_BASE + page) with
      | ok runs' => exact ih (start + 1) runs' (enlargeStep_length_le runs _ h runs' hstep)
      | fail e => simp [runsWithinBound]
      | panic p => simp [runsWithinBound]

/-! ### Claim C1 -/

/-- Claim C1, counterexample: with an allocator that is exhausted after five
frames, the rescue ends in a panic (the failed `unwrap`) — it aborts the
kernel instead of returning an out-of-memory condition to the requesting
allocation. -/
theorem enlarge_heap_oom_aborts_cex :
    enlarge_heap exhaustedAfter5 = .panic .unwrapNone := by decide

/-- Claim C1 (amended): if physical frame allocation fails at any point the
rescue would reach (any index below 16384), the rescue terminates in a panic
rather than looping forever; the out-of-memory condition is not surfaced as a
returned failure — the kernel aborts. -/
theorem enlarge_heap_aborts_on_frame_exhaustion (frames : Nat → Option Nat)
    (i : Nat) (h1 : i < 16384) (h2 : frames i = none) :
    (enlarge_heap frames).isPanic = true :=
  enlargeLoop_panics_of_none frames 16384 0 [] i (Nat.zero_le i) (by omega) h2

/-- Claim C1, witness for the amended theorem at the concrete exhausted
allocator. -/
theorem enlarge_heap_aborts_on_frame_exhaustion_witness :
    (enlarge_heap exhaustedAfter5).isPanic = true :=
  enlarge_heap_aborts_on_frame_exhaustion exhaustedAfter5 5 (by decide) (by decide)

/-! ### Claim C2 -/

/-- Claim C2, counterexample: with the allocator returning ascending frame
ids 0, 1, 2, … (addresses that never satisfy the descending-adjacency merge
test), every allocation starts a new run, so the 33rd allocation attempts the
out-of-bounds write `addrs[32]` and the rescue panics on the bounds check:
it is not true that the run count stays within 32 regardless of the addresses
the frame allocator returns. -/
theorem enlarge_heap_run_overflow_cex :
    enlarge_heap (fun i => some i) = .panic .indexOutOfBounds := by decide

/-- Claim C2 (amended): the rescue never performs an out-of-bounds write —
whenever it completes, the number of coalesced runs it tracked is at most 32;
but this bound is maintained by the Rust bounds check panicking on the
attempt to start a 33rd run, not by the coalescing logic, so for allocator
address sequences producing more than 32 runs the rescue aborts instead of
completing. -/
theorem enlarge_heap_tracks_at_most_32_runs (frames : Nat → Option Nat) :
    runsWithinBound (enlarge_heap frames) :=
  enlargeLoop_runs_le frames 16384 0 [] (by simp)

/-! ### Claim C10 -/

/-- Claim C10 (confirmed): the kernel-mapping duplication copies exactly the
top-level entry at `KERNEL_PM4` (kernel image) and the one at
`PHYSICAL_MEMORY_PM4` (direct physical-memory window) from `current` into
`pt`, OR-ing the `GLOBAL` attribute into each copied entry's flags, and
leaves every other top-level slot of `pt` unchanged. -/
theorem hal_pt_map_kernel_copies_exactly_kernel_slots (pt current : PageTable) :
    hal_pt_map_kernel pt current KERNEL_PM4 =
      { addr := (current KERNEL_PM4).addr,
        flags := (current KERNEL_PM4).flags ||| EF_GLOBAL } ∧
    hal_pt_map_kernel pt current PHYSICAL_MEMORY_PM4 =
      { addr := (current PHYSICAL_MEMORY_PM4).addr,
        flags := (current PHYSICAL_MEMORY_PM4).flags ||| EF_GLOBAL } ∧
    ∀ i, i ≠ KERNEL_PM4 → i ≠ PHYSICAL_MEMORY_PM4 →
      hal_pt_map_kernel pt current i = pt i := by
  refine ⟨?_, ?_, ?_⟩
  · simp [hal_pt_map_kernel]
  · simp only [hal_pt_map_kernel]
    rw [if_neg (show PHYSICAL_MEMORY_PM4 ≠ KERNEL_PM4 by decide)]
    simp
  · intro i h1 h2
    simp only [hal_pt_map_kernel]
    rw [if_neg h1, if_neg h2]

/-- Claim C10, witness: the frame condition of the duplication theorem at a
concrete pair of tables and the untouched slot 0. -/
theorem hal_pt_map_kernel_untouched_slot_witness :
    hal_pt_map_kernel ptZero ptRamp 0 = ptZero 0 :=
  (hal_pt_map_kernel_copies_exactly_kernel_slots ptZero ptRamp).2.2 0
    (by decide) (by decide)

/-! ### Syscall-layer fixtures -/

/-- A rights mask carrying all of the named rights. -/
def fullRights : Nat := 0xFFFF

/-- Object kinds of the fixture object store: object 1 is the calling
thread, object 2 another thread, object 3 a process, object 4 a port,
object 5 a vmar. -/
def kindOf (oid : Nat) : ObjKind :=
  if oid = 1 then .thread
  else if oid = 2 then .thread
  else if oid = 3 then .process
  else if oid = 4 then .port
  else if oid = 5 then .vmar
  else .other

/-- A concrete syscall state: handles 1 through 5 are live with full rights,
handle `hv` referring to object `hv`; every object starts with an empty
name; the caller runs as thread object 1. -/
def st0 : SysState where
  handles := fun hv => if 1 ≤ hv ∧ hv ≤ 5 then some ⟨hv, fullRights⟩ else none
  objects := fun oid => { kind := kindOf oid, name := [], debugAddr := 0, breakOnLoad := 0 }
  callerThread := 1
  fsbase := 0
  vdsoCodeStart := none
  signalBitsValid := fun _ => true

/-- Set the name property through the syscall, then read it back through the
syscall: the observable end-to-end behaviour of the name property on one
handle. -/
def nameRoundTrip (st : SysState) (hv : Nat) (input : List Char)
    (setSize getSize : Nat) : SysOutcome (Nat × Written) :=
  (sys_object_set_property st hv ZX_PROP_NAME input 0 setSize).bind fun r =>
    sys_object_get_property r.2 hv ZX_PROP_NAME getSize

/-- The name stored on object `oid` after a set-property call, when the call
succeeded. -/
def storedName (out : SysOutcome (Nat × SysState)) (oid : Nat) : Option (List Char) :=
  match out with
  | .ok (_, st') => some ((st'.objects oid).name)
  | _ => none

/-- The invariant that every stored object name has at most 32 bytes (the
largest length the name-set syscall can store). -/
def namesLe32 (st : SysState) : Prop :=
  ∀ oid, ((st.objects oid).name).length ≤ 32

/-! ### Claim C3 -/

/-- Claim C3, counterexample: setting the name with `buffer_size = 32` (the
truncation only fires for sizes strictly greater than 32) stores a 32-byte
name, and get-property with a 32-byte buffer then succeeds and writes a
32-character null-terminated string — more than the 31 characters the claim
allows. -/
theorem get_name_32_char_cex :
    nameRoundTrip st0 1 (List.replicate 40 'a') 32 32 =
      .ok (0, .cstring (List.replicate 32 'a')) ∧
    31 < (List.replicate 32 'a').length := by
  refine ⟨by decide, by decide⟩

/-- Claim C3 (amended): with the get-property right, get-name fails with
`BUFFER_TOO_SMALL` exactly when `buffer_size < 32`; for `buffer_size ≥ 32` it
succeeds (returns 0) and writes the stored name null-terminated — a string of
at most 32 characters, not 31, since the name-set syscall truncates to 31
bytes only for set buffers strictly larger than 32 and therefore can store
32-byte names (the last conjunct shows every name it stores has at most 32
bytes). -/
theorem get_name_buffer_checks (st : SysState) (hv : Nat) (h : Handle)
    (hh : st.handles hv = some h)
    (hr : rightsContain h.rights RIGHT_GET_PROPERTY = true)
    (hnames : namesLe32 st) (buffer_size : Nat) :
    (buffer_size < 32 →
      sys_object_get_property st hv ZX_PROP_NAME buffer_size = .fail .BUFFER_TOO_SMALL) ∧
    (32 ≤ buffer_size →
      sys_object_get_property st hv ZX_PROP_NAME buffer_size =
        .ok (0, .cstring (st.objects h.obj).name) ∧
      ((st.objects h.obj).name).length ≤ 32) ∧
    (∀ hv' input w bs st',
      sys_object_set_property st hv' ZX_PROP_NAME input w bs = .ok (0, st') →
      namesLe32 st') := by
  have hbase : ∀ bsz : Nat, sys_object_get_property st hv ZX_PROP_NAME bsz =
      if bsz < ZX_MAX_NAME_LEN then .fail .BUFFER_TOO_SMALL
      else .ok (0, .cstring (st.objects h.obj).name) := by
    intro bsz
    rw [sys_object_get_property, get_dyn_object_with_rights, hh]
    simp [hr, SysOutcome.bind]
  refine ⟨?_, ?_, ?_⟩
  · intro hlt
    rw [hbase, if_pos (by simpa [ZX_MAX_NAME_LEN] using hlt)]
  · intro hge
    refine ⟨?_, hnames h.obj⟩
    rw [hbase, if_neg (by simp only [ZX_MAX_NAME_LEN]; omega)]
  · intro hv' input w bs st' hset
    rw [sys_object_set_property] at hset
    cases hdyn : get_dyn_object_with_rights st hv' RIGHT_SET_PROPERTY with
    | ok oid =>
      rw [hdyn] at hset
      simp only [SysOutcome.bind, if_true] at hset
      simp only [SysOutcome.ok.injEq, Prod.mk.injEq, true_and] at hset
      subst hset
      intro oid'
      simp only [setName]
      by_cases he : oid' = oid
      · rw [if_pos he]
        simp only [List.length_take]
        have hL : (if bs > ZX_MAX_NAME_LEN then ZX_MAX_NAME_LEN - 1 else bs) ≤ 32 := by
          simp only [ZX_MAX_NAME_LEN]
          split_ifs <;> omega
        omega
      · rw [if_neg he]
        exact hnames oid'
    | fail e =>
      rw [hdyn] at hset
      simp [SysOutcome.bind] at hset
    | panic p =>
      rw [hdyn] at hset
      simp [SysOutcome.bind] at hset

/-- Claim C3, witness: the amended theorem applied at the concrete state
`st0` (whose names are all empty) with buffer sizes 31 and 32. -/
theorem get_name_buffer_checks_witness :
    sys_object_get_property st0 1 ZX_PROP_NAME 31 = .fail .BUFFER_TOO_SMALL ∧
    sys_object_get_property st0 1 ZX_PROP_NAME 32 =
      .ok (0, .cstring (st0.objects 1).name) := by
  have hnames : namesLe32 st0 := by
    intro oid
    simp [st0]
  refine ⟨(get_name_buffer_checks st0 1 ⟨1, fullRights⟩ (by decide) (by decide)
      hnames 31).1 (by decide),
    ((get_name_buffer_checks st0 1 ⟨1, fullRights⟩ (by decide) (by decide)
      hnames 32).2.1 (by decide)).1⟩

/-! ### Claim C4 -/

/-- Claim C4, counterexample: a set-name call with `buffer_size = 32`
(which exceeds 31) succeeds but stores 32 bytes of the input, not at most
31 — the truncation to 31 bytes only fires for buffer sizes strictly
greater than 32. -/
theorem set_name_bs32_stores_32_cex :
    storedName (sys_object_set_property st0 1 ZX_PROP_NAME (List.replicate 40 'a') 0 32) 1 =
      some (List.replicate 32 'a') ∧
    31 < (List.replicate 32 'a').length := by
  refine ⟨by decide, by decide⟩

/-- Claim C4 (amended): a set-name call is never rejected for being
oversized (with the set-property right it returns 0 for every buffer size);
for every `buffer_size` strictly greater than 32 it stores exactly the first
31 bytes of the input (truncated, at most 31 bytes); at the boundary
`buffer_size = 32` it stores 32 bytes (see the counterexample). -/
theorem set_name_truncation (st : SysState) (hv : Nat) (h : Handle)
    (hh : st.handles hv = some h)
    (hr : rightsContain h.rights RIGHT_SET_PROPERTY = true)
    (input : List Char) (w : Nat) :
    (∀ buffer_size, 32 < buffer_size →
      sys_object_set_property st hv ZX_PROP_NAME input w buffer_size =
        .ok (0, setName st h.obj (input.take 31)) ∧
      (input.take 31).length ≤ 31) ∧
    (∀ buffer_size,
      (sys_object_set_property st hv ZX_PROP_NAME input w buffer_size).isOk = true) := by
  have hdyn : get_dyn_object_with_rights st hv RIGHT_SET_PROPERTY = .ok h.obj := by
    rw [get_dyn_object_with_rights, hh]
    simp [hr]
  constructor
  · intro buffer_size hbs
    constructor
    · rw [sys_object_set_property, hdyn]
      simp only [SysOutcome.bind, if_true]
      have hcond : buffer_size > ZX_MAX_NAME_LEN := by
        simp only [ZX_MAX_NAME_LEN]
        omega
      rw [if_pos hcond]
      norm_num [ZX_MAX_NAME_LEN]
    · rw [List.length_take]
      omega
  · intro buffer_size
    rw [sys_object_set_property, hdyn]
    simp only [SysOutcome.bind, if_true]
    simp [SysOutcome.isOk]

/-- Claim C4, witness: the amended theorem at the concrete state `st0`, a
40-byte input, and buffer sizes 40 (truncating) and 7 (still accepted). -/
theorem set_name_truncation_witness :
    sys_object_set_property st0 1 ZX_PROP_NAME (List.replicate 40 'a') 0 40 =
      .ok (0, setName st0 1 ((List.replicate 40 'a').take 31)) ∧
    (sys_object_set_property st0 1 ZX_PROP_NAME (List.replicate 40 'a') 0 7).isOk = true := by
  refine ⟨((set_name_truncation st0 1 ⟨1, fullRights⟩ (by decide) (by decide)
      (List.replicate 40 'a') 0).1 40 (by decide)).1,
    (set_name_truncation st0 1 ⟨1, fullRights⟩ (by decide) (by decide)
      (List.replicate 40 'a') 0).2 7⟩

/-! ### Claim C7 -/

/-- Claim C7 (confirmed): the register-fs set only mutates register state
when the handle resolves to the calling thread itself — in that case it sets
the caller's `fsbase`; for a handle referring to a thread other than the
caller, the failed `assert!(Arc::ptr_eq(..))` panics deterministically and no
register state is mutated (the operation never completes, so it is never
silently applied to the wrong context). -/
theorem register_fs_only_calling_thread (st : SysState) (hv : Nat) (h : Handle)
    (hh : st.handles hv = some h)
    (hr : rightsContain h.rights RIGHT_SET_PROPERTY = true)
    (hkind : (st.objects h.obj).kind = .thread)
    (input : List Char) (w buffer_size : Nat) (hbs : 8 ≤ buffer_size) :
    (h.obj = st.callerThread →
      sys_object_set_property st hv ZX_PROP_REGISTER_FS input w buffer_size =
        .ok (0, { st with fsbase := w })) ∧
    (h.obj ≠ st.callerThread →
      sys_object_set_property st hv ZX_PROP_REGISTER_FS input w buffer_size =
        .panic .assertionFailed) := by
  have hdyn : get_dyn_object_with_rights st hv RIGHT_SET_PROPERTY = .ok h.obj := by
    rw [get_dyn_object_with_rights, hh]
    simp [hr]
  have hobj : get_object st hv .thread = .ok h.obj := by
    rw [get_object, hh]
    simp [hkind]
  have hbase : sys_object_set_property st hv ZX_PROP_REGISTER_FS input w buffer_size =
      if h.obj = st.callerThread then .ok (0, { st with fsbase := w })
      else .panic .assertionFailed := by
    rw [sys_object_set_property, hdyn]
    simp only [SysOutcome.bind, if_true]
    rw [if_neg (show ¬ buffer_size < 8 by omega), hobj]
    simp [SysOutcome.bind]
    rw [if_neg (show ZX_PROP_REGISTER_FS ≠ ZX_PROP_NAME by decide),
      if_neg (show ZX_PROP_REGISTER_FS ≠ ZX_PROP_PROCESS_DEBUG_ADDR by decide),
      if_neg (show ¬ buffer_size < 8 by omega)]
  constructor
  · intro hsame
    rw [hbase, if_pos hsame]
  · intro hdiff
    rw [hbase, if_neg hdiff]

/-- Claim C7, witness: at the concrete state `st0`, setting register-fs
through handle 2 (a thread that is not the caller) panics on the assertion,
while through handle 1 (the calling thread) it sets the caller's `fsbase`. -/
theorem register_fs_only_calling_thread_witness :
    sys_object_set_property st0 2 ZX_PROP_REGISTER_FS [] 4660 8 =
      .panic .assertionFailed ∧
    sys_object_set_property st0 1 ZX_PROP_REGISTER_FS [] 4660 8 =
      .ok (0, { st0 with fsbase := 4660 }) := by
  refine ⟨(register_fs_only_calling_thread st0 2 ⟨2, fullRights⟩ (by decide) (by decide)
      (by decide) [] 4660 8 (by decide)).2 (by decide),
    (register_fs_only_calling_thread st0 1 ⟨1, fullRights⟩ (by decide) (by decide)
      (by decide) [] 4660 8 (by decide)).1 (by decide)⟩

/-! ### Claim C8 -/

/-- Claim C8 (confirmed): for every property identifier other than 3, 4, 5,
6, 7, both get-property and set-property on a handle carrying the respective
required right fall through every recognized arm and fail with
`INVALID_ARGS` — a typed failure, not a panic. -/
theorem unknown_property_invalid_args (st : SysState) (hv : Nat) (h : Handle)
    (hh : st.handles hv = some h)
    (hget : rightsContain h.rights RIGHT_GET_PROPERTY = true)
    (hsetr : rightsContain h.rights RIGHT_SET_PROPERTY = true)
    (property : Nat) (h3 : property ≠ ZX_PROP_NAME) (h4 : property ≠ ZX_PROP_REGISTER_FS)
    (h5 : property ≠ ZX_PROP_PROCESS_DEBUG_ADDR) (h6 : property ≠ ZX_PROCESS_VDSO_BASE_ADDRESS)
    (h7 : property ≠ ZX_PROP_PROCESS_BREAK_ON_LOAD)
    (input : List Char) (w buffer_size : Nat) :
    sys_object_get_property st hv property buffer_size = .fail .INVALID_ARGS ∧
    sys_object_set_property st hv property input w buffer_size = .fail .INVALID_ARGS := by
  have hdg : get_dyn_object_with_rights st hv RIGHT_GET_PROPERTY = .ok h.obj := by
    rw [get_dyn_object_with_rights, hh]
    simp [hget]
  have hds : get_dyn_object_with_rights st hv RIGHT_SET_PROPERTY = .ok h.obj := by
    rw [get_dyn_object_with_rights, hh]
    simp [hsetr]
  constructor
  · rw [sys_object_get_property, hdg]
    simp only [SysOutcome.bind]
    rw [if_neg h3, if_neg h5, if_neg h6, if_neg h7]
  · rw [sys_object_set_property, hds]
    simp only [SysOutcome.bind]
    rw [if_neg h3, if_neg h5, if_neg h4, if_neg h7]

/-- Claim C8, witness: property 99 on the full-rights handle 1 of `st0`
fails with `INVALID_ARGS` on both get and set. -/
theorem unknown_property_invalid_args_witness :
    sys_object_get_property st0 1 99 64 = .fail .INVALID_ARGS ∧
    sys_object_set_property st0 1 99 [] 0 64 = .fail .INVALID_ARGS :=
  unknown_property_invalid_args st0 1 ⟨1, fullRights⟩ (by decide) (by decide) (by decide)
    99 (by decide) (by decide) (by decide) (by decide) (by decide) [] 0 64

/-! ### Claim C5 -/

/-- Claim C5 (confirmed): for every topic other than 2 (handle-basic),
3 (process) and 7 (vmar) — whether outside the closed enumeration (such as 5
or 99) or inside it but not implemented — get-info fails with
`NOT_SUPPORTED`, never `INVALID_ARGS`. -/
theorem get_info_unsupported_topics (st : SysState) (handle : Nat) (topic : Nat)
    (h2 : topic ≠ 2) (h3 : topic ≠ 3) (h7 : topic ≠ 7) (bsz : Nat) :
    sys_object_get_info st handle topic bsz = .fail .NOT_SUPPORTED := by
  rcases Nat.lt_or_ge topic 28 with hlt | hge
  · interval_cases topic <;> first | rfl | omega
  · rw [sys_object_get_info, ZxInfo.fromU32]
    repeat rw [if_neg (by omega)]

/-- Claim C5, witness: topic 5 (a hole in the enumeration) and topic 99
(outside it) both fail with `NOT_SUPPORTED` on the concrete state `st0`. -/
theorem get_info_unsupported_topics_witness :
    sys_object_get_info st0 3 5 0 = .fail .NOT_SUPPORTED ∧
    sys_object_get_info st0 3 99 0 = .fail .NOT_SUPPORTED :=
  ⟨get_info_unsupported_topics st0 3 5 (by decide) (by decide) (by decide) 0,
   get_info_unsupported_topics st0 3 99 (by decide) (by decide) (by decide) 0⟩

/-! ### Claim C9 -/

/-- Handle resolution with rights never yields a buffer-size failure. -/
theorem get_dyn_not_bts (st : SysState) (hv r : Nat) :
    (get_dyn_object_with_rights st hv r).failsWith .BUFFER_TOO_SMALL = false := by
  rw [get_dyn_object_with_rights]
  cases st.handles hv with
  | none => rfl
  | some h =>
    by_cases hc : rightsContain h.rights r = true <;>
      simp [hc, SysOutcome.failsWith]

/-- Typed handle resolution never yields a buffer-size failure. -/
theorem get_object_with_rights_not_bts (st : SysState) (hv r : Nat) (k : ObjKind) :
    (get_object_with_rights st hv r k).failsWith .BUFFER_TOO_SMALL = false := by
  rw [get_object_with_rights]
  cases hd : get_dyn_object_with_rights st hv r with
  | ok oid =>
    simp only [SysOutcome.bind]
    split_ifs <;> rfl
  | fail e =>
    have hnb := get_dyn_not_bts st hv r
    rw [hd] at hnb
    simpa [SysOutcome.bind] using hnb
  | panic p => rfl

/-- Claim C9, counterexample: get-info on a process handle with topic 3 and a
zero-sized buffer succeeds and performs the write of the fixed-size process
info structure — the caller-supplied buffer size is never validated and no
buffer-too-small failure is possible. -/
theorem get_info_ignores_buffer_size_cex :
    sys_object_get_info st0 3 3 0 = .ok (0, .processInfo) := by decide

/-- Claim C9 (amended): `sys_object_get_info` receives the caller-supplied
buffer size but ignores it entirely: its result is independent of the buffer
size, and it never fails with `BUFFER_TOO_SMALL` — for supported topics it
performs the write unconditionally. -/
theorem get_info_ignores_buffer_size (st : SysState) (handle topic bs1 bs2 : Nat) :
    sys_object_get_info st handle topic bs1 = sys_object_get_info st handle topic bs2 ∧
    (sys_object_get_info st handle topic bs1).failsWith .BUFFER_TOO_SMALL = false := by
  refine ⟨rfl, ?_⟩
  rw [sys_object_get_info]
  cases hc : ZxInfo.fromU32 topic with
  | InfoProcess =>
    cases hg : get_object_with_rights st handle RIGHT_INSPECT .process with
    | ok oid => simp [SysOutcome.bind, SysOutcome.failsWith]
    | fail e =>
      have hnb := get_object_with_rights_not_bts st handle RIGHT_INSPECT .process
      rw [hg] at hnb
      simpa [SysOutcome.bind] using hnb
    | panic p => simp [SysOutcome.bind, SysOutcome.failsWith]
  | InfoVmar =>
    cases hg : get_object_with_rights st handle RIGHT_INSPECT .vmar with
    | ok oid => simp [SysOutcome.bind, SysOutcome.failsWith]
    | fail e =>
      have hnb := get_object_with_rights_not_bts st handle RIGHT_INSPECT .vmar
      rw [hg] at hnb
      simpa [SysOutcome.bind] using hnb
    | panic p => simp [SysOutcome.bind, SysOutcome.failsWith]
  | InfoHandleBasic =>
    cases hhh : st.handles handle <;>
      simp [get_handle_info, hhh, SysOutcome.bind, SysOutcome.failsWith]
  | InfoNone => rfl
  | InfoHandleValid => rfl
  | InfoProcessThreads => rfl
  | InfoJobChildren => rfl
  | InfoJobProcess => rfl
  | InfoThread => rfl
  | InfoThreadExceptionReport => rfl
  | InfoTaskStats => rfl
  | InfoProcessMaps => rfl
  | InfoProcessVmos => rfl
  | InfoThreadStats => rfl
  | InfoCpuStats => rfl
  | InfoKmemStats => rfl
  | InfoResource => rfl
  | InfoHandleCount => rfl
  | InfoBti => rfl
  | InfoProcessHandleStats => rfl
  | InfoSocket => rfl
  | InfoVmo => rfl
  | InfoJob => rfl
  | InfoTimer => rfl
  | InfoStream => rfl
  | Unknown => rfl

/-! ### Claim C6 -/

/-- Claim C6, counterexample: wait-async with a well-formed signal mask and
`options = 1` hits `unimplemented!` and panics — the rejection is not
returned as a typed result code at the syscall boundary; it unwinds. -/
theorem wait_async_nonzero_options_cex :
    sys_object_wait_async st0 1 4 7 0 1 = .panic .unimplemented := by decide

/-- Claim C6 (amended): any `options` value other than 0 is deterministically
rejected — never silently ignored — but by the `unimplemented!` panic, before
any handle is resolved; the failure is not returned as a typed result code
(an ill-formed signal mask, checked first, still yields `INVALID_ARGS`). -/
theorem wait_async_nonzero_options_unimplemented (st : SysState)
    (hv ph key signals options : Nat)
    (hsig : st.signalBitsValid signals = true) (hopt : options ≠ 0) :
    sys_object_wait_async st hv ph key signals options = .panic .unimplemented := by
  rw [sys_object_wait_async, if_pos hsig, if_pos hopt]

/-- Claim C6, witness: the amended theorem at the concrete state `st0` with
`options = 2`. -/
theorem wait_async_nonzero_options_unimplemented_witness :
    sys_object_wait_async st0 1 4 9 0 2 = .panic .unimplemented :=
  wait_async_nonzero_options_unimplemented st0 1 4 9 0 2 (by decide) (by decide)
